import Mathlib

/-!
Verification development for the `scanner-backend` inventory system
(`scanner_engine.py`, `database.py`, `api.py`).

The Python source is embedded shallowly:

* quantities (SQLAlchemy `Float` columns, Python floats holding small
  integral values in every code path) are modelled as `Rat`;
* the database session is modelled as explicit state
  (`LedgerState` / `AppState`): a raised exception before `commit`
  leaves the committed state untouched, which the embedding renders by
  returning `Except.error` without a new state;
* SQLAlchemy `query(...).filter(...).first()` is modelled as a
  first-match scan over an association list.
-/

namespace Scanner

/-! ### Observation merger (`scanner_engine.py`, `BarcodeScanner.scan_frame`)

A pyzbar detection carries a decoded payload (`data`), a symbology
(`type`) and a bounding rectangle.  `scan_frame` decodes the raw frame
and a thresholded copy, then merges the two lists with
`list({b.data: b for b in (barcodes + barcodes_thresh)}.values())`:
a Python dict built by successive insertion, so a key keeps its first
insertion position but its value is overwritten by later duplicates. -/

structure Detection where
  data : String
  type : String
  left : Int
  top : Int
  width : Int
  height : Int
deriving DecidableEq, Repr

/-- One step of the dict comprehension `d[b.data] = b`: the dict is a
list of detections with pairwise distinct payloads, in key-insertion
order; an existing key keeps its position but takes the new value, a
new key is appended. -/
def dictInsert : List Detection → Detection → List Detection
  | [], b => [b]
  | v :: rest, b => if v.data = b.data then b :: rest else v :: dictInsert rest b

/-- `scan_frame`'s merge of the detection passes:
`list({b.data: b for b in (barcodes + barcodes_thresh)}.values())`,
generalised to any list of passes (the source concatenates exactly two). -/
def mergeDetections (passes : List (List Detection)) : List Detection :=
  passes.flatten.foldl dictInsert []

/-- Specification-side helper: the payloads of `l` in order of first
occurrence, each exactly once. -/
def firstOccurrences (l : List String) : List String :=
  l.foldl (fun acc a => if a ∈ acc then acc else acc ++ [a]) []

/-- First element of `l` whose payload is `p` (models a lookup among
the merged detections). -/
def firstWith : List Detection → String → Option Detection
  | [], _ => none
  | d :: rest, p => if d.data = p then some d else firstWith rest p

theorem dictInsert_map_data (m : List Detection) (b : Detection) :
    (dictInsert m b).map Detection.data =
      if b.data ∈ m.map Detection.data then m.map Detection.data
      else m.map Detection.data ++ [b.data] := by
  induction m with
  | nil => simp [dictInsert]
  | cons v rest ih =>
    by_cases h : v.data = b.data
    · simp [dictInsert, h]
    · simp only [dictInsert, if_neg h, List.map_cons, ih]
      by_cases hm : b.data ∈ rest.map Detection.data
      · simp [hm, Ne.symm h]
      · simp [hm, Ne.symm h]

theorem foldl_dictInsert_map_data (l : List Detection) (m : List Detection) :
    (l.foldl dictInsert m).map Detection.data =
      (l.map Detection.data).foldl
        (fun acc a => if a ∈ acc then acc else acc ++ [a]) (m.map Detection.data) := by
  induction l generalizing m with
  | nil => rfl
  | cons b t ih =>
    simp only [List.foldl_cons, List.map_cons, ih, dictInsert_map_data]

theorem mergeDetections_map_data (ps : List (List Detection)) :
    (mergeDetections ps).map Detection.data =
      firstOccurrences (ps.flatten.map Detection.data) := by
  simpa [firstOccurrences] using foldl_dictInsert_map_data ps.flatten []

theorem foldl_firstOcc_nodup (l : List String) (acc : List String) (h : acc.Nodup) :
    (l.foldl (fun acc a => if a ∈ acc then acc else acc ++ [a]) acc).Nodup := by
  induction l generalizing acc with
  | nil => exact h
  | cons a t ih =>
    simp only [List.foldl_cons]
    by_cases hm : a ∈ acc
    · simpa [hm] using ih acc h
    · refine ih _ ?_
      simp [hm, List.nodup_append, h]

theorem mem_foldl_firstOcc (l : List String) (acc : List String) (a : String) :
    a ∈ l.foldl (fun acc x => if x ∈ acc then acc else acc ++ [x]) acc ↔
      a ∈ acc ∨ a ∈ l := by
  induction l generalizing acc with
  | nil => simp
  | cons b t ih =>
    simp only [List.foldl_cons]
    rw [ih]
    by_cases hb : b ∈ acc
    · simp only [if_pos hb, List.mem_cons]
      constructor
      · rintro (h | h)
        · exact Or.inl h
        · exact Or.inr (Or.inr h)
      · rintro (h | h | h)
        · exact Or.inl h
        · exact Or.inl (h ▸ hb)
        · exact Or.inr h
    · simp only [if_neg hb, List.mem_append, List.mem_singleton, List.mem_cons]
      tauto

theorem firstWith_append (l₁ l₂ : List Detection) (p : String) :
    firstWith (l₁ ++ l₂) p =
      match firstWith l₁ p with
      | some d => some d
      | none => firstWith l₂ p := by
  induction l₁ with
  | nil => simp [firstWith]
  | cons d rest ih =>
    by_cases h : d.data = p
    · simp [firstWith, h]
    · simp [firstWith, h, ih]

theorem firstWith_dictInsert (m : List Detection) (b : Detection) (p : String) :
    firstWith (dictInsert m b) p =
      if b.data = p then some b else firstWith m p := by
  induction m with
  | nil => simp [dictInsert, firstWith]
  | cons v rest ih =>
    by_cases h : v.data = b.data
    · by_cases hp : b.data = p
      · simp [dictInsert, firstWith, h, hp]
      · have hvp : ¬ v.data = p := h ▸ hp
        simp [dictInsert, firstWith, h, hp, hvp]
    · by_cases hvp : v.data = p
      · have hp : ¬ b.data = p := fun hbp => h (hvp.trans hbp.symm)
        have hp2 : ¬ p = b.data := fun e => hp e.symm
        simp [dictInsert, firstWith, h, hvp, hp, hp2]
      · simp [dictInsert, firstWith, h, hvp, ih]

theorem firstWith_foldl_dictInsert (l m : List Detection) (p : String) :
    firstWith (l.foldl dictInsert m) p =
      match firstWith l.reverse p with
      | some d => some d
      | none => firstWith m p := by
  induction l generalizing m with
  | nil => simp [firstWith]
  | cons a t ih =>
    simp only [List.foldl_cons, List.reverse_cons, ih, firstWith_append,
      firstWith_dictInsert]
    cases firstWith t.reverse p with
    | some d => rfl
    | none =>
      by_cases hp : a.data = p
      · simp [firstWith, hp]
      · simp [firstWith, hp]

/-- Concrete detections used by the testable-property scenarios. -/
def obsA : Detection := { data := "A", type := "QRCODE", left := 0, top := 0, width := 10, height := 10 }

def obsB : Detection := { data := "B", type := "QRCODE", left := 20, top := 0, width := 10, height := 10 }

def obsC : Detection := { data := "C", type := "QRCODE", left := 40, top := 0, width := 10, height := 10 }

/-- Two detections of the same payload from different passes: same
payload bytes, different symbology and bounding region. -/
def obsA1 : Detection := { data := "A", type := "QRCODE", left := 0, top := 0, width := 10, height := 10 }

def obsA2 : Detection := { data := "A", type := "CODE128", left := 5, top := 5, width := 20, height := 20 }

/-- C3: the merged output of `scan_frame` contains each distinct decoded
payload exactly once, keyed by byte-identical payload alone; the output
order is the order of first occurrence of each payload across the
concatenation of the passes; and `merge [[A,B],[B,C]] = [A,B,C]`. -/
theorem scan_frame_merge_dedup (ps : List (List Detection)) :
    ((mergeDetections ps).map Detection.data).Nodup ∧
    (mergeDetections ps).map Detection.data =
      firstOccurrences (ps.flatten.map Detection.data) ∧
    (∀ p, p ∈ (mergeDetections ps).map Detection.data ↔
      p ∈ ps.flatten.map Detection.data) ∧
    mergeDetections [[obsA, obsB], [obsB, obsC]] = [obsA, obsB, obsC] := by
  refine ⟨?_, mergeDetections_map_data ps, ?_, by decide⟩
  · rw [mergeDetections_map_data]
    exact foldl_firstOcc_nodup _ [] List.nodup_nil
  · intro p
    rw [mergeDetections_map_data, firstOccurrences, mem_foldl_firstOcc]
    simp

/-- C4, counterexample: two detections with byte-identical payload `"A"`
but different symbology and region; the merge retains the *last* seen
one (`obsA2`, symbology CODE128), not the first-seen `obsA1` (QRCODE),
refuting first-seen-wins. -/
theorem merge_retains_last_not_first :
    mergeDetections [[obsA1], [obsA2]] = [obsA2] ∧
    obsA2.type ≠ obsA1.type ∧ obsA2 ≠ obsA1 := by decide

/-- C4, amended: for every payload, the single retained observation in
the merged output is the detection with that payload appearing *last*
in the concatenation of the input lists (its position in the output is
still the first occurrence of the payload, per C3). -/
theorem merge_last_seen_wins (ps : List (List Detection)) (p : String) :
    firstWith (mergeDetections ps) p = firstWith ps.flatten.reverse p := by
  rw [mergeDetections, firstWith_foldl_dictInsert]
  cases firstWith ps.flatten.reverse p with
  | some d => rfl
  | none => rfl

/-! ### Stock Ledger Engine (`database.py`)

`ScannerDatabaseOperations.update_stock` reads the `StockLevel` row for
`(product_id, warehouse_id)` (creating an in-session row with quantity
0 when absent), computes `new_qty = stock.quantity + quantity_change`,
raises `ValueError("Insufficient stock. Available: ...")` when
`new_qty < 0` (the session context then rolls back, so the committed
state is untouched), and otherwise writes the balance, inserts exactly
one `StockMovement` row, and commits.  The committed database is
modelled as `LedgerState`; the `ValueError` kinds raised by
`database.py` are modelled as `StockError`. -/

inductive MovementType where
  | RECEIPT
  | DELIVERY
  | TRANSFER
  | ADJUSTMENT
  | SCAN_RECEIPT
  | SCAN_DELIVERY
deriving DecidableEq, Repr

structure StockMovement where
  productId : String
  warehouseId : String
  movementType : MovementType
  quantity : Rat
  quantityChange : Rat
  reason : Option String
  scannedBy : Option String
  scannerId : Option String
deriving DecidableEq, Repr

/-- The `ValueError` kinds raised by `database.py` (distinguished in the
source by their message text). -/
inductive StockError where
  | insufficientStock (available : Rat)
  | productNotFound (barcode : String)
  | warehouseNotFound (barcode : String)
deriving DecidableEq, Repr

/-- The committed database state seen by the ledger: the `stock_levels`
table keyed by `(product_id, warehouse_id)` and the append-only
`stock_movements` table. -/
structure LedgerState where
  stockLevels : List ((String × String) × Rat)
  movements : List StockMovement
deriving DecidableEq, Repr

/-- `session.query(StockLevel).filter(product_id, warehouse_id).first()`:
first matching row's quantity. -/
def findLevel : List ((String × String) × Rat) → (String × String) → Option Rat
  | [], _ => none
  | kv :: rest, k => if kv.1 = k then some kv.2 else findLevel rest k

/-- `get_stock_level`: the current balance, `0.0` when no row exists. -/
def getQty (s : LedgerState) (pid wid : String) : Rat :=
  (findLevel s.stockLevels (pid, wid)).getD 0

/-- Writing the balance back: update the existing row in place, or
append a fresh row when the key is absent (the `StockLevel(...)` +
`session.add` path of `update_stock`). -/
def setQty : List ((String × String) × Rat) → (String × String) → Rat →
    List ((String × String) × Rat)
  | [], k, q => [(k, q)]
  | kv :: rest, k, q => if kv.1 = k then (k, q) :: rest else kv :: setQty rest k q

/-- Python's `abs` on the quantity change. -/
def ratAbs (q : Rat) : Rat := if q < 0 then -q else q

/-- The `StockMovement(...)` record built at lines 303–313 of
`database.py`: `quantity=abs(quantity_change)`,
`quantity_change=quantity_change`, plus kind, reason, actor, scanner. -/
def mkMovement (pid wid : String) (qc : Rat) (mt : MovementType)
    (reason scannedBy scannerId : Option String) : StockMovement :=
  { productId := pid, warehouseId := wid, movementType := mt,
    quantity := ratAbs qc, quantityChange := qc,
    reason := reason, scannedBy := scannedBy, scannerId := scannerId }

/-- The dictionary returned by a successful `update_stock`; the inserted
movement row stands in for the returned `movement_id` (in the source the
id is a fresh UUID naming exactly that row). -/
structure UpdateResult where
  oldQuantity : Rat
  newQuantity : Rat
  quantityChange : Rat
  movement : StockMovement
deriving DecidableEq, Repr

/-- `ScannerDatabaseOperations.update_stock` (database.py:245-328).
On `new_qty < 0` the raised `ValueError` aborts before `commit`, so no
new state is produced; otherwise the balance write and the movement
insert commit together. -/
def update_stock (s : LedgerState) (productId warehouseId : String)
    (quantityChange : Rat) (movementType : MovementType)
    (reason scannedBy scannerId : Option String) :
    Except StockError (UpdateResult × LedgerState) :=
  let oldQty := getQty s productId warehouseId
  let newQty := oldQty + quantityChange
  if newQty < 0 then
    Except.error (StockError.insufficientStock oldQty)
  else
    let movement := mkMovement productId warehouseId quantityChange movementType
      reason scannedBy scannerId
    Except.ok
      ({ oldQuantity := oldQty, newQuantity := newQty,
         quantityChange := quantityChange, movement := movement },
       { stockLevels := setQty s.stockLevels (productId, warehouseId) newQty,
         movements := s.movements ++ [movement] })

/-- A single `adjust` request against the ledger. -/
structure AdjustCall where
  productId : String
  warehouseId : String
  quantityChange : Rat
  movementType : MovementType
  reason : Option String
  scannedBy : Option String
  scannerId : Option String
deriving DecidableEq, Repr

/-- A caller that keeps its committed state when `update_stock` raises. -/
def applyCall (s : LedgerState) (c : AdjustCall) : LedgerState :=
  match update_stock s c.productId c.warehouseId c.quantityChange c.movementType
      c.reason c.scannedBy c.scannerId with
  | Except.ok (_, s') => s'
  | Except.error _ => s

def runCalls (s : LedgerState) (cs : List AdjustCall) : LedgerState :=
  cs.foldl applyCall s

/-- The empty database (`create_tables` on a fresh database). -/
def initialState : LedgerState := { stockLevels := [], movements := [] }

theorem findLevel_setQty_same (m : List ((String × String) × Rat))
    (k : String × String) (q : Rat) : findLevel (setQty m k q) k = some q := by
  induction m with
  | nil => simp [setQty, findLevel]
  | cons kv rest ih =>
    by_cases h : kv.1 = k
    · simp [setQty, findLevel, h]
    · simp [setQty, findLevel, h, ih]

theorem findLevel_setQty_ne (m : List ((String × String) × Rat))
    (k k' : String × String) (q : Rat) (h : k' ≠ k) :
    findLevel (setQty m k q) k' = findLevel m k' := by
  have h2 : ¬ k = k' := fun e => h e.symm
  induction m with
  | nil => simp [setQty, findLevel, h, h2]
  | cons kv rest ih =>
    by_cases hk : kv.1 = k
    · simp [setQty, findLevel, hk, h, h2]
    · by_cases hk' : kv.1 = k'
      · simp [setQty, findLevel, hk, hk', h, h2]
      · simp [setQty, findLevel, hk, hk', ih]

/-- Inversion of a successful `update_stock`. -/
theorem update_stock_ok_inv (s : LedgerState) (pid wid : String) (qc : Rat)
    (mt : MovementType) (r a d : Option String) (res : UpdateResult)
    (s' : LedgerState)
    (h : update_stock s pid wid qc mt r a d = Except.ok (res, s')) :
    ¬ getQty s pid wid + qc < 0 ∧
    res.oldQuantity = getQty s pid wid ∧
    res.newQuantity = getQty s pid wid + qc ∧
    res.quantityChange = qc ∧
    res.movement = mkMovement pid wid qc mt r a d ∧
    s'.stockLevels = setQty s.stockLevels (pid, wid) (getQty s pid wid + qc) ∧
    s'.movements = s.movements ++ [res.movement] := by
  by_cases hneg : getQty s pid wid + qc < 0
  · rw [update_stock] at h
    simp only [if_pos hneg] at h
    exact absurd h (by simp)
  · rw [update_stock] at h
    simp only [if_neg hneg] at h
    injection h with h1
    injection h1 with hres hst
    subst hres hst
    exact ⟨hneg, rfl, rfl, rfl, rfl, rfl, rfl⟩

/-- On `new_qty < 0`, `update_stock` raises `InsufficientStock`
reporting the untouched balance. -/
theorem update_stock_error_of_neg (s : LedgerState) (pid wid : String)
    (qc : Rat) (mt : MovementType) (r a d : Option String)
    (h : getQty s pid wid + qc < 0) :
    update_stock s pid wid qc mt r a d =
      Except.error (StockError.insufficientStock (getQty s pid wid)) := by
  rw [update_stock]
  simp only [if_pos h]

/-- When the resulting balance is non-negative, `update_stock` commits
and returns the full result. -/
theorem update_stock_ok_of_nonneg (s : LedgerState) (pid wid : String)
    (qc : Rat) (mt : MovementType) (r a d : Option String)
    (h : 0 ≤ getQty s pid wid + qc) :
    update_stock s pid wid qc mt r a d =
      Except.ok
        ({ oldQuantity := getQty s pid wid,
           newQuantity := getQty s pid wid + qc,
           quantityChange := qc, movement := mkMovement pid wid qc mt r a d },
         { stockLevels := setQty s.stockLevels (pid, wid) (getQty s pid wid + qc),
           movements := s.movements ++ [mkMovement pid wid qc mt r a d] }) := by
  rw [update_stock]
  simp only [if_neg (not_lt.mpr h)]

theorem ratAbs_eq_abs (q : Rat) : ratAbs q = |q| := by
  unfold ratAbs
  by_cases h : q < 0
  · rw [if_pos h, abs_of_neg h]
  · rw [if_neg h, abs_of_nonneg (not_lt.mp h)]

/-- Every committed balance is non-negative (absent keys read as 0). -/
def NonNegState (s : LedgerState) : Prop :=
  ∀ pid wid, 0 ≤ getQty s pid wid

theorem nonneg_initialState : NonNegState initialState := by
  intro pid wid
  simp [getQty, initialState, findLevel]

theorem nonneg_applyCall (s : LedgerState) (c : AdjustCall)
    (h : NonNegState s) : NonNegState (applyCall s c) := by
  unfold applyCall
  cases hu : update_stock s c.productId c.warehouseId c.quantityChange
      c.movementType c.reason c.scannedBy c.scannerId with
  | error e => exact h
  | ok rs =>
    obtain ⟨res, s'⟩ := rs
    obtain ⟨hneg, -, -, -, -, hlv, -⟩ :=
      update_stock_ok_inv _ _ _ _ _ _ _ _ _ _ hu
    intro p w
    by_cases hk : (p, w) = (c.productId, c.warehouseId)
    · have : getQty s' p w =
          getQty s c.productId c.warehouseId + c.quantityChange := by
        unfold getQty
        rw [hlv, hk, findLevel_setQty_same]
        rfl
      rw [this]
      exact not_lt.mp hneg
    · have : getQty s' p w = getQty s p w := by
        unfold getQty
        rw [hlv, findLevel_setQty_ne _ _ _ _ hk]
      rw [this]
      exact h p w

theorem nonneg_runCalls (cs : List AdjustCall) (s : LedgerState)
    (h : NonNegState s) : NonNegState (runCalls s cs) := by
  induction cs generalizing s with
  | nil => exact h
  | cons c t ih => exact ih (applyCall s c) (nonneg_applyCall s c h)

/-- Sum of `quantity_change` over the movements of the given key. -/
def msum (l : List StockMovement) (pid wid : String) : Rat :=
  ((l.filter (fun m => decide (m.productId = pid ∧ m.warehouseId = wid))).map
    StockMovement.quantityChange).sum

def movementSum (s : LedgerState) (pid wid : String) : Rat :=
  msum s.movements pid wid

theorem msum_append_single (l : List StockMovement) (m : StockMovement)
    (pid wid : String) :
    msum (l ++ [m]) pid wid =
      msum l pid wid +
        (if m.productId = pid ∧ m.warehouseId = wid then m.quantityChange else 0) := by
  by_cases h : m.productId = pid ∧ m.warehouseId = wid
  · simp [msum, List.filter_append, h]
  · simp [msum, List.filter_append, h]

/-- The audit-ledger invariant: every balance equals the sum of the
committed movements' quantity changes for its key. -/
def ConsistentState (s : LedgerState) : Prop :=
  ∀ pid wid, getQty s pid wid = movementSum s pid wid

theorem consistent_initialState : ConsistentState initialState := by
  intro pid wid
  simp [getQty, movementSum, msum, initialState, findLevel]

theorem consistent_applyCall (s : LedgerState) (c : AdjustCall)
    (h : ConsistentState s) : ConsistentState (applyCall s c) := by
  unfold applyCall
  cases hu : update_stock s c.productId c.warehouseId c.quantityChange
      c.movementType c.reason c.scannedBy c.scannerId with
  | error e => exact h
  | ok rs =>
    obtain ⟨res, s'⟩ := rs
    obtain ⟨-, -, -, -, hmv, hlv, hms⟩ :=
      update_stock_ok_inv _ _ _ _ _ _ _ _ _ _ hu
    intro p w
    have hsum : movementSum s' p w =
        movementSum s p w +
          (if res.movement.productId = p ∧ res.movement.warehouseId = w
            then res.movement.quantityChange else 0) := by
      unfold movementSum
      rw [hms, msum_append_single]
    by_cases hk : (p, w) = (c.productId, c.warehouseId)
    · have hpk : p = c.productId := (Prod.mk.injEq _ _ _ _ ▸ hk).1
      have hwk : w = c.warehouseId := (Prod.mk.injEq _ _ _ _ ▸ hk).2
      have hq : getQty s' p w =
          getQty s c.productId c.warehouseId + c.quantityChange := by
        unfold getQty
        rw [hlv, hk, findLevel_setQty_same]
        rfl
      rw [hq, hsum, hmv]
      simp only [mkMovement]
      rw [if_pos ⟨hpk.symm, hwk.symm⟩]
      subst hpk
      subst hwk
      rw [h c.productId c.warehouseId]
    · have hq : getQty s' p w = getQty s p w := by
        unfold getQty
        rw [hlv, findLevel_setQty_ne _ _ _ _ hk]
      have hnk : ¬ (res.movement.productId = p ∧ res.movement.warehouseId = w) := by
        rw [hmv]
        simp only [mkMovement]
        rintro ⟨h1, h2⟩
        exact hk (by rw [h1, h2])
      rw [hq, hsum, if_neg hnk, add_zero]
      exact h p w

theorem consistent_runCalls (cs : List AdjustCall) (s : LedgerState)
    (h : ConsistentState s) : ConsistentState (runCalls s cs) := by
  induction cs generalizing s with
  | nil => exact h
  | cons c t ih => exact ih (applyCall s c) (consistent_applyCall s c h)

/-- C1: whenever the current balance (0 when no StockLevel row exists)
plus `quantityChange` is negative, `update_stock` fails with the
`InsufficientStock` error and the committed state is untouched (no
balance change, no row creation, no movement insert); consequently
after any sequence of adjust calls starting from the empty database
every balance is ≥ 0. -/
theorem update_stock_insufficient_blocks_negative :
    (∀ (s : LedgerState) (pid wid : String) (qc : Rat) (mt : MovementType)
        (r a d : Option String), getQty s pid wid + qc < 0 →
        update_stock s pid wid qc mt r a d =
          Except.error (StockError.insufficientStock (getQty s pid wid))) ∧
    (∀ (s : LedgerState) (c : AdjustCall),
        getQty s c.productId c.warehouseId + c.quantityChange < 0 →
        applyCall s c = s) ∧
    (∀ (cs : List AdjustCall) (pid wid : String),
        0 ≤ getQty (runCalls initialState cs) pid wid) := by
  refine ⟨update_stock_error_of_neg, ?_, ?_⟩
  · intro s c h
    unfold applyCall
    rw [update_stock_error_of_neg s c.productId c.warehouseId c.quantityChange
      c.movementType c.reason c.scannedBy c.scannerId h]
  · intro cs pid wid
    exact nonneg_runCalls cs initialState nonneg_initialState pid wid

/-- A delivery of 2 against an empty ledger. -/
def callD2 : AdjustCall :=
  { productId := "P1", warehouseId := "W1", quantityChange := -2,
    movementType := MovementType.SCAN_DELIVERY, reason := none,
    scannedBy := none, scannerId := none }

/-- Witness for C1: a delivery of 2 from an empty balance fails with
`InsufficientStock`, leaves the state unchanged, and the balance after
that attempted call is still ≥ 0. -/
theorem update_stock_insufficient_blocks_negative_witness :
    update_stock initialState "P1" "W1" (-2) MovementType.SCAN_DELIVERY
        none none none =
      Except.error (StockError.insufficientStock (getQty initialState "P1" "W1")) ∧
    applyCall initialState callD2 = initialState ∧
    0 ≤ getQty (runCalls initialState [callD2]) "P1" "W1" :=
  ⟨update_stock_insufficient_blocks_negative.1 initialState "P1" "W1" (-2)
      MovementType.SCAN_DELIVERY none none none
      (by norm_num [getQty, initialState, findLevel]),
   update_stock_insufficient_blocks_negative.2.1 initialState callD2
      (by norm_num [getQty, initialState, findLevel, callD2]),
   update_stock_insufficient_blocks_negative.2.2 [callD2] "P1" "W1"⟩

/-- C2: each successful `update_stock` inserts exactly one movement
whose `quantity_change` is the call's `quantityChange` and moves the
balance by exactly that amount; hence after any sequence of calls from
the empty database, each balance equals the sum of the committed
movements' quantity changes for its key. -/
theorem ledger_balance_equals_movement_sum :
    (∀ (s : LedgerState) (pid wid : String) (qc : Rat) (mt : MovementType)
        (r a d : Option String) (res : UpdateResult) (s' : LedgerState),
        update_stock s pid wid qc mt r a d = Except.ok (res, s') →
        s'.movements = s.movements ++ [res.movement] ∧
        res.movement.quantityChange = qc ∧
        getQty s' pid wid = getQty s pid wid + qc) ∧
    (∀ (cs : List AdjustCall) (pid wid : String),
        getQty (runCalls initialState cs) pid wid =
          movementSum (runCalls initialState cs) pid wid) := by
  constructor
  · intro s pid wid qc mt r a d res s' h
    obtain ⟨-, -, -, -, hmv, hlv, hms⟩ :=
      update_stock_ok_inv _ _ _ _ _ _ _ _ _ _ h
    refine ⟨hms, by rw [hmv]; rfl, ?_⟩
    unfold getQty
    rw [hlv, findLevel_setQty_same]
    rfl
  · intro cs pid wid
    exact consistent_runCalls cs initialState consistent_initialState pid wid

/-- A receipt of 5 against the empty ledger, and the state it commits. -/
def callR5 : AdjustCall :=
  { productId := "P1", warehouseId := "W1", quantityChange := 5,
    movementType := MovementType.SCAN_RECEIPT, reason := none,
    scannedBy := none, scannerId := none }

def mv5 : StockMovement :=
  mkMovement "P1" "W1" 5 MovementType.SCAN_RECEIPT none none none

def state5 : LedgerState :=
  { stockLevels := [(("P1", "W1"), 5)], movements := [mv5] }

def res5 : UpdateResult :=
  { oldQuantity := 0, newQuantity := 5, quantityChange := 5, movement := mv5 }

/-- Witness for C2: the receipt of 5 on the empty ledger inserts exactly
the one movement with change 5, moves the balance by 5, and the balance
equals the movement sum after the call. -/
theorem ledger_balance_equals_movement_sum_witness :
    (state5.movements = initialState.movements ++ [res5.movement] ∧
     res5.movement.quantityChange = 5 ∧
     getQty state5 "P1" "W1" = getQty initialState "P1" "W1" + 5) ∧
    getQty (runCalls initialState [callR5]) "P1" "W1" =
      movementSum (runCalls initialState [callR5]) "P1" "W1" :=
  ⟨ledger_balance_equals_movement_sum.1 initialState "P1" "W1" 5
      MovementType.SCAN_RECEIPT none none none res5 state5
      (by norm_num [update_stock, getQty, initialState, findLevel, setQty,
        mkMovement, ratAbs, mv5, state5, res5]),
   ledger_balance_equals_movement_sum.2 [callR5] "P1" "W1"⟩

/-- C7: a successful `update_stock` returns the pre-call balance as
`old_quantity` (0 when the row was absent), `new_quantity =
old_quantity + quantity_change`, leaves the key's row present holding
the new quantity, and its returned movement is exactly the single row
appended to the movement table; a zero `quantity_change` is allowed and
commits a no-op movement. -/
theorem update_stock_success_returns :
    (∀ (s : LedgerState) (pid wid : String) (qc : Rat) (mt : MovementType)
        (r a d : Option String) (res : UpdateResult) (s' : LedgerState),
        update_stock s pid wid qc mt r a d = Except.ok (res, s') →
        res.oldQuantity = getQty s pid wid ∧
        res.newQuantity = res.oldQuantity + qc ∧
        s'.movements = s.movements ++ [res.movement] ∧
        findLevel s'.stockLevels (pid, wid) = some res.newQuantity) ∧
    (∀ (s : LedgerState) (pid wid : String) (mt : MovementType)
        (r a d : Option String), 0 ≤ getQty s pid wid →
        ∃ (res : UpdateResult) (s' : LedgerState),
          update_stock s pid wid 0 mt r a d = Except.ok (res, s') ∧
          res.movement.quantityChange = 0 ∧
          res.newQuantity = res.oldQuantity) := by
  constructor
  · intro s pid wid qc mt r a d res s' h
    obtain ⟨-, hold, hnew, -, -, hlv, hms⟩ :=
      update_stock_ok_inv _ _ _ _ _ _ _ _ _ _ h
    refine ⟨hold, by rw [hnew, hold], hms, ?_⟩
    rw [hlv, findLevel_setQty_same, hnew]
  · intro s pid wid mt r a d h
    have h0 : 0 ≤ getQty s pid wid + 0 := by simpa using h
    refine ⟨_, _, update_stock_ok_of_nonneg s pid wid 0 mt r a d h0, rfl, ?_⟩
    simp

/-- Witness for C7: the receipt of 5 on the empty ledger returns
old 0 / new 5 and creates the row; a later zero-change adjustment on
the resulting state succeeds as a no-op movement. -/
theorem update_stock_success_returns_witness :
    (res5.oldQuantity = getQty initialState "P1" "W1" ∧
     res5.newQuantity = res5.oldQuantity + 5 ∧
     state5.movements = initialState.movements ++ [res5.movement] ∧
     findLevel state5.stockLevels ("P1", "W1") = some res5.newQuantity) ∧
    (∃ (res : UpdateResult) (s' : LedgerState),
        update_stock state5 "P1" "W1" 0 MovementType.ADJUSTMENT
            none none none = Except.ok (res, s') ∧
        res.movement.quantityChange = 0 ∧
        res.newQuantity = res.oldQuantity) :=
  ⟨update_stock_success_returns.1 initialState "P1" "W1" 5
      MovementType.SCAN_RECEIPT none none none res5 state5
      (by norm_num [update_stock, getQty, initialState, findLevel, setQty,
        mkMovement, ratAbs, mv5, state5, res5]),
   update_stock_success_returns.2 state5 "P1" "W1" MovementType.ADJUSTMENT
      none none none (by norm_num [getQty, state5, findLevel])⟩

/-- C8, counterexample: from a committed balance of 5, a receipt of 3
yields a movement whose `quantity` field is `abs(quantity_change) = 3`,
while the magnitude of the resulting balance is `|8| = 8 ≠ 3`; so the
movement does *not* carry the resulting balance magnitude. -/
theorem movement_quantity_not_resulting_balance :
    (update_stock state5 "P1" "W1" 3 MovementType.SCAN_RECEIPT
        none none none).toOption.map
        (fun rs => (rs.1.movement.quantity, rs.1.newQuantity)) = some (3, 8) ∧
    (3 : Rat) ≠ |(8 : Rat)| := by
  constructor
  · norm_num [update_stock, getQty, state5, findLevel, setQty, mkMovement,
      ratAbs, Except.toOption]
  · rw [abs_of_nonneg (by norm_num : (0 : Rat) ≤ 8)]
    norm_num

/-- C8, amended: every movement committed by a successful adjust
carries the signed quantity change of the call and the absolute
magnitude of that *change* (not of the resulting balance), together
with the movement kind, reason, actor and scanner identifier. -/
theorem movement_record_carries_change_and_magnitude :
    ∀ (s : LedgerState) (pid wid : String) (qc : Rat) (mt : MovementType)
      (r a d : Option String) (res : UpdateResult) (s' : LedgerState),
      update_stock s pid wid qc mt r a d = Except.ok (res, s') →
      res.movement.quantityChange = qc ∧
      res.movement.quantity = |qc| ∧
      res.movement.movementType = mt ∧
      res.movement.reason = r ∧
      res.movement.scannedBy = a ∧
      res.movement.scannerId = d := by
  intro s pid wid qc mt r a d res s' h
  obtain ⟨-, -, -, -, hmv, -, -⟩ := update_stock_ok_inv _ _ _ _ _ _ _ _ _ _ h
  rw [hmv]
  exact ⟨rfl, ratAbs_eq_abs qc, rfl, rfl, rfl, rfl⟩

/-- A delivery of 2 from the balance-5 state, with reason/actor/scanner
set; the committed movement and result used by the C8 witness. -/
def mvD2 : StockMovement :=
  mkMovement "P1" "W1" (-2) MovementType.SCAN_DELIVERY
    (some "why") (some "user") (some "cam0")

def stateAfterD2 : LedgerState :=
  { stockLevels := [(("P1", "W1"), 3)], movements := [mv5, mvD2] }

def resD2 : UpdateResult :=
  { oldQuantity := 5, newQuantity := 3, quantityChange := -2, movement := mvD2 }

/-- Witness for the amended C8: a concrete delivery of 2 commits a
movement carrying change `-2`, magnitude `|-2|`, kind SCAN_DELIVERY and
the supplied reason, actor and scanner id. -/
theorem movement_record_carries_change_and_magnitude_witness :
    resD2.movement.quantityChange = -2 ∧
    resD2.movement.quantity = |(-2 : Rat)| ∧
    resD2.movement.movementType = MovementType.SCAN_DELIVERY ∧
    resD2.movement.reason = some "why" ∧
    resD2.movement.scannedBy = some "user" ∧
    resD2.movement.scannerId = some "cam0" :=
  movement_record_carries_change_and_magnitude state5 "P1" "W1" (-2)
    MovementType.SCAN_DELIVERY (some "why") (some "user") (some "cam0")
    resD2 stateAfterD2
    (by norm_num [update_stock, getQty, state5, findLevel, setQty,
      mkMovement, ratAbs, mvD2, stateAfterD2, resD2, mv5])

/-! ### Catalog lookup and Scan Action Router (`database.py`, `api.py`)

`find_product_by_barcode` / `find_warehouse_by_barcode` run
`query(...).filter(barcode == b).first()` over the read-only catalog;
a `NULL` barcode column never matches.  `process_receipt_scan` /
`process_delivery_scan` resolve both barcodes, call `update_stock`
with `+quantity` resp. `-quantity`, and catch every raised
`ValueError`, returning `{'success': False, 'error': ...}` with the
session rolled back.  The FastAPI handlers `scan_receipt` /
`scan_delivery` then call `log_scan` exactly once with
`success=result['success']` and the resolved ids pulled out of the
result dict (`None` when the result carries no `product`/`warehouse`
key, i.e. on any failure); `lookup_barcode` resolves
product-then-warehouse and writes nothing. -/

structure ProductRec where
  id : String
  name : String
  sku : String
  category : Option String
  unitOfMeasure : Option String
  barcode : Option String
deriving DecidableEq, Repr

structure WarehouseRec where
  id : String
  name : String
  code : String
  location : Option String
  barcode : Option String
deriving DecidableEq, Repr

/-- The read-only catalog tables. -/
structure Catalog where
  products : List ProductRec
  warehouses : List WarehouseRec
deriving DecidableEq, Repr

/-- `find_product_by_barcode` (database.py:210-221). -/
def find_product_by_barcode : List ProductRec → String → Option ProductRec
  | [], _ => none
  | p :: rest, b => if p.barcode = some b then some p else find_product_by_barcode rest b

/-- `find_warehouse_by_barcode` (database.py:223-233). -/
def find_warehouse_by_barcode : List WarehouseRec → String → Option WarehouseRec
  | [], _ => none
  | w :: rest, b => if w.barcode = some b then some w else find_warehouse_by_barcode rest b

/-- The result dictionary of `process_receipt_scan` /
`process_delivery_scan`: `success: True` with product, warehouse and
the `update_stock` result spread in, or `success: False` with the
stringified error. -/
inductive ScanOutcome where
  | success (action : String) (product : ProductRec) (warehouse : WarehouseRec)
      (result : UpdateResult)
  | failure (error : StockError)
deriving DecidableEq, Repr

def outcomeIsSuccess : ScanOutcome → Bool
  | ScanOutcome.success _ _ _ _ => true
  | ScanOutcome.failure _ => false

/-- `result.get('product', {}).get('id')` in the API handlers. -/
def outcomeProductId : ScanOutcome → Option String
  | ScanOutcome.success _ p _ _ => some p.id
  | ScanOutcome.failure _ => none

/-- `result.get('warehouse', {}).get('id')` in the API handlers. -/
def outcomeWarehouseId : ScanOutcome → Option String
  | ScanOutcome.success _ _ w _ => some w.id
  | ScanOutcome.failure _ => none

/-- `ScannerDatabaseOperations.process_receipt_scan`
(database.py:330-393): resolve product, resolve warehouse,
`update_stock(..., quantity_change=quantity, SCAN_RECEIPT, ...)`; any
raised `ValueError` is caught and reported as a failure dict with the
committed state unchanged. -/
def process_receipt_scan (c : Catalog) (s : LedgerState)
    (product_barcode warehouse_barcode : String) (quantity : Rat)
    (scanned_by scanner_id : Option String) : ScanOutcome × LedgerState :=
  match find_product_by_barcode c.products product_barcode with
  | none => (ScanOutcome.failure (StockError.productNotFound product_barcode), s)
  | some p =>
    match find_warehouse_by_barcode c.warehouses warehouse_barcode with
    | none => (ScanOutcome.failure (StockError.warehouseNotFound warehouse_barcode), s)
    | some w =>
      match update_stock s p.id w.id quantity MovementType.SCAN_RECEIPT
          (some ("Scanned receipt: " ++ p.name)) scanned_by scanner_id with
      | Except.error e => (ScanOutcome.failure e, s)
      | Except.ok (res, s') => (ScanOutcome.success "receipt" p w res, s')

/-- `ScannerDatabaseOperations.process_delivery_scan`
(database.py:395-446): same shape with `quantity_change=-quantity` and
`SCAN_DELIVERY`. -/
def process_delivery_scan (c : Catalog) (s : LedgerState)
    (product_barcode warehouse_barcode : String) (quantity : Rat)
    (scanned_by scanner_id : Option String) : ScanOutcome × LedgerState :=
  match find_product_by_barcode c.products product_barcode with
  | none => (ScanOutcome.failure (StockError.productNotFound product_barcode), s)
  | some p =>
    match find_warehouse_by_barcode c.warehouses warehouse_barcode with
    | none => (ScanOutcome.failure (StockError.warehouseNotFound warehouse_barcode), s)
    | some w =>
      match update_stock s p.id w.id (-quantity) MovementType.SCAN_DELIVERY
          (some ("Scanned delivery: " ++ p.name)) scanned_by scanner_id with
      | Except.error e => (ScanOutcome.failure e, s)
      | Except.ok (res, s') => (ScanOutcome.success "delivery" p w res, s')

/-- One row of the `scan_logs` table. -/
structure ScanLogEntry where
  barcodeData : String
  barcodeType : String
  scannerId : Option String
  cameraId : Int
  actionTaken : String
  productId : Option String
  warehouseId : Option String
  quantity : Option Rat
  success : Bool
  errorMessage : Option String
deriving DecidableEq, Repr

/-- The mutable backend state visible to the API: the ledger plus the
append-only scan log. -/
structure AppState where
  ledger : LedgerState
  scanLogs : List ScanLogEntry
deriving DecidableEq, Repr

/-- The `ReceiptRequest` pydantic model (api.py:64-70). -/
structure ReceiptRequest where
  product_barcode : String
  warehouse_barcode : String
  quantity : Rat
  scanned_by : Option String
  scanner_id : Option String
deriving DecidableEq, Repr

/-- The `DeliveryRequest` pydantic model (api.py:73-79); its fields are
identical to `ReceiptRequest`. -/
structure DeliveryRequest where
  product_barcode : String
  warehouse_barcode : String
  quantity : Rat
  scanned_by : Option String
  scanner_id : Option String
deriving DecidableEq, Repr

/-- The `log_scan` row the two scan handlers append (api.py:258-268 and
301-311): barcode type `"QR_CODE"`, camera 0, ids via
`result.get(...)`, `success=result['success']`, no error message
argument. -/
def scanLogRow (barcode : String) (scanner_id : Option String)
    (action : String) (quantity : Rat) (result : ScanOutcome) : ScanLogEntry :=
  { barcodeData := barcode, barcodeType := "QR_CODE",
    scannerId := scanner_id, cameraId := 0, actionTaken := action,
    productId := outcomeProductId result,
    warehouseId := outcomeWarehouseId result,
    quantity := some quantity, success := outcomeIsSuccess result,
    errorMessage := none }

/-- The `/scan/receipt` handler `scan_receipt` (api.py:237-277):
process the scan, then append exactly one scan-log row. -/
def scan_receipt (c : Catalog) (st : AppState) (req : ReceiptRequest) :
    ScanOutcome × AppState :=
  let pr := process_receipt_scan c st.ledger req.product_barcode
    req.warehouse_barcode req.quantity req.scanned_by req.scanner_id
  (pr.1,
   { ledger := pr.2,
     scanLogs := st.scanLogs ++
       [scanLogRow req.product_barcode req.scanner_id "receipt" req.quantity pr.1] })

/-- The `/scan/delivery` handler `scan_delivery` (api.py:280-320). -/
def scan_delivery (c : Catalog) (st : AppState) (req : DeliveryRequest) :
    ScanOutcome × AppState :=
  let pr := process_delivery_scan c st.ledger req.product_barcode
    req.warehouse_barcode req.quantity req.scanned_by req.scanner_id
  (pr.1,
   { ledger := pr.2,
     scanLogs := st.scanLogs ++
       [scanLogRow req.product_barcode req.scanner_id "delivery" req.quantity pr.1] })

/-- The response of `/scan/lookup/{barcode}`: a product payload, a
warehouse payload, or the 404 `"Barcode not found"`. -/
inductive LookupResult where
  | product (p : ProductRec)
  | warehouse (w : WarehouseRec)
  | notFound
deriving DecidableEq, Repr

/-- The `/scan/lookup/{barcode}` handler `lookup_barcode`
(api.py:323-363): try the product catalog, then the warehouse catalog,
else 404; it performs no write, so it returns the state unchanged. -/
def lookup_barcode (c : Catalog) (st : AppState) (barcode : String) :
    LookupResult × AppState :=
  match find_product_by_barcode c.products barcode with
  | some p => (LookupResult.product p, st)
  | none =>
    match find_warehouse_by_barcode c.warehouses barcode with
    | some w => (LookupResult.warehouse w, st)
    | none => (LookupResult.notFound, st)

theorem outcome_fail_ids (o : ScanOutcome) (h : outcomeIsSuccess o = false) :
    outcomeProductId o = none ∧ outcomeWarehouseId o = none := by
  cases o with
  | success a p w r => simp [outcomeIsSuccess] at h
  | failure e => exact ⟨rfl, rfl⟩

/-- C5: every receipt or delivery scan handled by the API appends
exactly one scan-log row, whose success flag is the business outcome's
success flag and whose resolved ids are null whenever the outcome is a
failure. -/
theorem scan_handlers_append_one_log :
    (∀ (c : Catalog) (st : AppState) (req : ReceiptRequest),
        ∃ e : ScanLogEntry,
          (scan_receipt c st req).2.scanLogs = st.scanLogs ++ [e] ∧
          e.success = outcomeIsSuccess (scan_receipt c st req).1 ∧
          (e.success = false → e.productId = none ∧ e.warehouseId = none)) ∧
    (∀ (c : Catalog) (st : AppState) (req : DeliveryRequest),
        ∃ e : ScanLogEntry,
          (scan_delivery c st req).2.scanLogs = st.scanLogs ++ [e] ∧
          e.success = outcomeIsSuccess (scan_delivery c st req).1 ∧
          (e.success = false → e.productId = none ∧ e.warehouseId = none)) := by
  constructor
  · intro c st req
    exact ⟨_, rfl, rfl, fun hf => outcome_fail_ids _ hf⟩
  · intro c st req
    exact ⟨_, rfl, rfl, fun hf => outcome_fail_ids _ hf⟩

def emptyCatalog : Catalog := { products := [], warehouses := [] }

def app0 : AppState := { ledger := initialState, scanLogs := [] }

def reqR0 : ReceiptRequest :=
  { product_barcode := "X", warehouse_barcode := "Y", quantity := 1,
    scanned_by := none, scanner_id := none }

def reqD0 : DeliveryRequest :=
  { product_barcode := "X", warehouse_barcode := "Y", quantity := 1,
    scanned_by := none, scanner_id := none }

/-- Witness for C5: against an empty catalog both handlers still append
exactly one (failed) log row. -/
theorem scan_handlers_append_one_log_witness :
    (∃ e : ScanLogEntry,
        (scan_receipt emptyCatalog app0 reqR0).2.scanLogs = app0.scanLogs ++ [e] ∧
        e.success = outcomeIsSuccess (scan_receipt emptyCatalog app0 reqR0).1 ∧
        (e.success = false → e.productId = none ∧ e.warehouseId = none)) ∧
    (∃ e : ScanLogEntry,
        (scan_delivery emptyCatalog app0 reqD0).2.scanLogs = app0.scanLogs ++ [e] ∧
        e.success = outcomeIsSuccess (scan_delivery emptyCatalog app0 reqD0).1 ∧
        (e.success = false → e.productId = none ∧ e.warehouseId = none)) :=
  ⟨scan_handlers_append_one_log.1 emptyCatalog app0 reqR0,
   scan_handlers_append_one_log.2 emptyCatalog app0 reqD0⟩

/-- C6: an unresolved product or warehouse barcode short-circuits both
scan processors — the ledger state is returned untouched (no StockLevel
write, no movement) and the outcome is a structured failure carrying
the specific not-found error; an insufficient delivery likewise leaves
the balance untouched and surfaces the structured `InsufficientStock`
failure with the quantity never clamped. -/
theorem scan_failure_no_ledger_mutation :
    (∀ (c : Catalog) (s : LedgerState) (pb wb : String) (q : Rat)
        (a d : Option String), find_product_by_barcode c.products pb = none →
        process_receipt_scan c s pb wb q a d =
          (ScanOutcome.failure (StockError.productNotFound pb), s) ∧
        process_delivery_scan c s pb wb q a d =
          (ScanOutcome.failure (StockError.productNotFound pb), s)) ∧
    (∀ (c : Catalog) (s : LedgerState) (pb wb : String) (q : Rat)
        (a d : Option String) (p : ProductRec),
        find_product_by_barcode c.products pb = some p →
        find_warehouse_by_barcode c.warehouses wb = none →
        process_receipt_scan c s pb wb q a d =
          (ScanOutcome.failure (StockError.warehouseNotFound wb), s) ∧
        process_delivery_scan c s pb wb q a d =
          (ScanOutcome.failure (StockError.warehouseNotFound wb), s)) ∧
    (∀ (c : Catalog) (s : LedgerState) (pb wb : String) (q : Rat)
        (a d : Option String) (p : ProductRec) (w : WarehouseRec),
        find_product_by_barcode c.products pb = some p →
        find_warehouse_by_barcode c.warehouses wb = some w →
        getQty s p.id w.id - q < 0 →
        process_delivery_scan c s pb wb q a d =
          (ScanOutcome.failure (StockError.insufficientStock (getQty s p.id w.id)), s)) := by
  refine ⟨?_, ?_, ?_⟩
  · intro c s pb wb q a d h
    constructor
    · simp only [process_receipt_scan, h]
    · simp only [process_delivery_scan, h]
  · intro c s pb wb q a d p hp hw
    constructor
    · simp only [process_receipt_scan, hp, hw]
    · simp only [process_delivery_scan, hp, hw]
  · intro c s pb wb q a d p w hp hw hq
    have hq' : getQty s p.id w.id + -q < 0 := by rwa [← sub_eq_add_neg]
    simp only [process_delivery_scan, hp, hw,
      update_stock_error_of_neg s p.id w.id (-q) MovementType.SCAN_DELIVERY
        (some ("Scanned delivery: " ++ p.name)) a d hq']

def prodSteel : ProductRec :=
  { id := "P1", name := "Steel Rods", sku := "PROD-001",
    category := none, unitOfMeasure := none, barcode := some "QR-P1" }

def whMain : WarehouseRec :=
  { id := "W1", name := "Main Warehouse", code := "WH-MAIN",
    location := none, barcode := some "QR-W1" }

def demoCatalog : Catalog := { products := [prodSteel], warehouses := [whMain] }

def prodOnlyCatalog : Catalog := { products := [prodSteel], warehouses := [] }

/-- A warehouse sharing the product's barcode, for the lookup-priority
edge case. -/
def whClash : WarehouseRec :=
  { id := "W2", name := "Clash", code := "WH-2",
    location := none, barcode := some "QR-P1" }

def clashCatalog : Catalog := { products := [prodSteel], warehouses := [whClash] }

/-- Witness for C6: both not-found failures and the insufficient-stock
delivery on concrete inputs, with the ledger state returned unchanged. -/
theorem scan_failure_no_ledger_mutation_witness :
    (process_receipt_scan emptyCatalog initialState "X" "Y" 1 none none =
        (ScanOutcome.failure (StockError.productNotFound "X"), initialState) ∧
     process_delivery_scan emptyCatalog initialState "X" "Y" 1 none none =
        (ScanOutcome.failure (StockError.productNotFound "X"), initialState)) ∧
    (process_receipt_scan prodOnlyCatalog initialState "QR-P1" "Y" 1 none none =
        (ScanOutcome.failure (StockError.warehouseNotFound "Y"), initialState) ∧
     process_delivery_scan prodOnlyCatalog initialState "QR-P1" "Y" 1 none none =
        (ScanOutcome.failure (StockError.warehouseNotFound "Y"), initialState)) ∧
    process_delivery_scan demoCatalog initialState "QR-P1" "QR-W1" 1 none none =
        (ScanOutcome.failure
          (StockError.insufficientStock (getQty initialState "P1" "W1")),
         initialState) :=
  ⟨scan_failure_no_ledger_mutation.1 emptyCatalog initialState "X" "Y" 1
      none none rfl,
   scan_failure_no_ledger_mutation.2.1 prodOnlyCatalog initialState "QR-P1" "Y" 1
      none none prodSteel rfl rfl,
   scan_failure_no_ledger_mutation.2.2 demoCatalog initialState "QR-P1" "QR-W1" 1
      none none prodSteel whMain rfl rfl
      (by norm_num [getQty, initialState, findLevel, prodSteel, whMain])⟩

/-- C9: `lookup_barcode` resolves product first and warehouse second —
when a barcode matches a product it is returned even if a warehouse
also matches — when neither matches the outcome is not-found, and the
lookup leaves the application state (ledger and scan log) unchanged;
in particular this implementation writes no ScanLogEntry for lookups. -/
theorem lookup_product_priority_no_mutation :
    (∀ (c : Catalog) (st : AppState) (b : String) (p : ProductRec),
        find_product_by_barcode c.products b = some p →
        lookup_barcode c st b = (LookupResult.product p, st)) ∧
    (∀ (c : Catalog) (st : AppState) (b : String),
        find_product_by_barcode c.products b = none →
        find_warehouse_by_barcode c.warehouses b = none →
        lookup_barcode c st b = (LookupResult.notFound, st)) ∧
    (∀ (c : Catalog) (st : AppState) (b : String),
        (lookup_barcode c st b).2 = st) := by
  refine ⟨?_, ?_, ?_⟩
  · intro c st b p h
    simp only [lookup_barcode, h]
  · intro c st b hp hw
    simp only [lookup_barcode, hp, hw]
  · intro c st b
    unfold lookup_barcode
    cases find_product_by_barcode c.products b with
    | some p => rfl
    | none =>
      cases find_warehouse_by_barcode c.warehouses b with
      | some w => rfl
      | none => rfl

/-- Witness for C9: a barcode carried by both a product and a warehouse
resolves to the product; an unknown barcode resolves to not-found; the
state is unchanged in both cases. -/
theorem lookup_product_priority_no_mutation_witness :
    lookup_barcode clashCatalog app0 "QR-P1" =
      (LookupResult.product prodSteel, app0) ∧
    find_warehouse_by_barcode clashCatalog.warehouses "QR-P1" = some whClash ∧
    lookup_barcode emptyCatalog app0 "Z" = (LookupResult.notFound, app0) ∧
    (lookup_barcode clashCatalog app0 "QR-P1").2 = app0 :=
  ⟨lookup_product_priority_no_mutation.1 clashCatalog app0 "QR-P1" prodSteel rfl,
   rfl,
   lookup_product_priority_no_mutation.2.1 emptyCatalog app0 "Z" rfl rfl,
   lookup_product_priority_no_mutation.2.2 clashCatalog app0 "QR-P1"⟩

/-- C10: with both barcodes resolvable, a receipt applies exactly
`+quantity` to the ledger and a delivery exactly `-quantity`, with no
sign or positivity validation — the only constraint is the
non-negativity check on the resulting balance. -/
theorem router_passes_signed_quantity :
    (∀ (c : Catalog) (s : LedgerState) (pb wb : String) (q : Rat)
        (a d : Option String) (p : ProductRec) (w : WarehouseRec),
        find_product_by_barcode c.products pb = some p →
        find_warehouse_by_barcode c.warehouses wb = some w →
        0 ≤ getQty s p.id w.id + q →
        outcomeIsSuccess (process_receipt_scan c s pb wb q a d).1 = true ∧
        getQty (process_receipt_scan c s pb wb q a d).2 p.id w.id =
          getQty s p.id w.id + q) ∧
    (∀ (c : Catalog) (s : LedgerState) (pb wb : String) (q : Rat)
        (a d : Option String) (p : ProductRec) (w : WarehouseRec),
        find_product_by_barcode c.products pb = some p →
        find_warehouse_by_barcode c.warehouses wb = some w →
        0 ≤ getQty s p.id w.id - q →
        outcomeIsSuccess (process_delivery_scan c s pb wb q a d).1 = true ∧
        getQty (process_delivery_scan c s pb wb q a d).2 p.id w.id =
          getQty s p.id w.id - q) := by
  constructor
  · intro c s pb wb q a d p w hp hw hq
    simp only [process_receipt_scan, hp, hw,
      update_stock_ok_of_nonneg s p.id w.id q MovementType.SCAN_RECEIPT
        (some ("Scanned receipt: " ++ p.name)) a d hq]
    refine ⟨rfl, ?_⟩
    unfold getQty
    rw [findLevel_setQty_same]
    rfl
  · intro c s pb wb q a d p w hp hw hq
    have hq' : 0 ≤ getQty s p.id w.id + -q := by rwa [← sub_eq_add_neg]
    simp only [process_delivery_scan, hp, hw,
      update_stock_ok_of_nonneg s p.id w.id (-q) MovementType.SCAN_DELIVERY
        (some ("Scanned delivery: " ++ p.name)) a d hq']
    refine ⟨rfl, ?_⟩
    unfold getQty
    rw [findLevel_setQty_same, sub_eq_add_neg]
    rfl

/-- Witness for C10: a receipt called with quantity `-2` decreases the
balance from 5 to 3, and a delivery called with quantity `-1` increases
it from 5 to 6 — no sign validation anywhere. -/
theorem router_passes_signed_quantity_witness :
    (outcomeIsSuccess (process_receipt_scan demoCatalog state5 "QR-P1" "QR-W1"
        (-2) none none).1 = true ∧
     getQty (process_receipt_scan demoCatalog state5 "QR-P1" "QR-W1"
        (-2) none none).2 prodSteel.id whMain.id =
       getQty state5 prodSteel.id whMain.id + (-2)) ∧
    (outcomeIsSuccess (process_delivery_scan demoCatalog state5 "QR-P1" "QR-W1"
        (-1) none none).1 = true ∧
     getQty (process_delivery_scan demoCatalog state5 "QR-P1" "QR-W1"
        (-1) none none).2 prodSteel.id whMain.id =
       getQty state5 prodSteel.id whMain.id - (-1)) :=
  ⟨router_passes_signed_quantity.1 demoCatalog state5 "QR-P1" "QR-W1" (-2)
      none none prodSteel whMain rfl rfl
      (by norm_num [getQty, state5, findLevel, prodSteel, whMain]),
   router_passes_signed_quantity.2 demoCatalog state5 "QR-P1" "QR-W1" (-1)
      none none prodSteel whMain rfl rfl
      (by norm_num [getQty, state5, findLevel, prodSteel, whMain])⟩
